import Mathlib

/-!
Verification development for the `datalys2_tasks` scheduler adapter.

The definitions below are a shallow embedding of the Python source:

* `src/datalys2_tasks/scheduler/windows.py` — `WindowsTaskScheduler`
  (`_ensure_task_path`, `create_task`, `query_task`, `list_tasks`);
* `src/datalys2_tasks/scheduler/autorun.py` — `schedule_me`;
* `src/datalys2_tasks/server/scheduler_router.py` — `list_scheduled_tasks`.

Pure computation (time parsing, boundary resolution, argument quoting, CSV
parsing, name qualification, substring filtering) is embedded directly;
string algorithms are written over `List Char` by structural recursion so
that every definition evaluates inside the kernel.  Interaction with the
operating system (filesystem existence, the `schtasks` subprocess, the OS
task registry) is made explicit through a `World` record threaded through
the stateful operations; the behaviour of the external `schtasks` utility
is modelled by deterministic transitions on that record (create with `/F`
succeeds and registers the qualified name; query succeeds exactly when the
name is registered).  Observable effects of one call (document generation,
temporary-file creation and removal, the create subprocess invocation, the
query invocation) are recorded as an event trace so that claims about "no
subprocess call" or "exactly one create invocation" are statable.
-/

namespace Datalys2

/-- Split a character list at every occurrence of `sep`; mirrors Python
`str.split(sep)` for a one-character separator (and Lean's
`String.splitOn` on such separators). -/
def chSplit (sep : Char) : List Char → List (List Char)
  | [] => [[]]
  | c :: cs =>
    let r := chSplit sep cs
    if c == sep then [] :: r
    else
      match r with
      | h :: t => (c :: h) :: t
      | [] => [[c]]

/-- Does `l` start with `p`? -/
def listStartsWith : List Char → List Char → Bool
  | [], _ => true
  | _ :: _, [] => false
  | p :: ps, c :: cs => p == c && listStartsWith ps cs

/-- Does `pat` occur somewhere in `l`?  Mirrors Python `pat in s`. -/
def subOccurs (pat : List Char) : List Char → Bool
  | [] => listStartsWith pat []
  | c :: cs => listStartsWith pat (c :: cs) || subOccurs pat cs

/-- Python substring test `pat in s`. -/
def strContains (s pat : String) : Bool :=
  subOccurs pat.data s.data

/-- Decimal digits to a number. -/
def digitsToNat (l : List Char) : Nat :=
  l.foldl (fun acc c => acc * 10 + (c.toNat - 48)) 0

/-- Uppercase a string; mirrors Python `str.upper()` on ASCII. -/
def strToUpper (s : String) : String :=
  String.mk (s.data.map Char.toUpper)

/-- A local wall-clock instant: a day number plus seconds since midnight.
Mirrors Python `datetime.datetime` at the granularity the code uses
(`datetime.combine(now.date(), time)` and `start_dt < now`). -/
structure DateTime where
  day : Nat
  sec : Nat
deriving DecidableEq, Repr

/-- Python `datetime` comparison `a < b`: lexicographic on (date, time). -/
def dtLtb (a b : DateTime) : Bool :=
  Nat.blt a.day b.day || (a.day == b.day && Nat.blt a.sec b.sec)

/-- Embedding of `datetime.datetime.strptime(start_time, "%H:%M").time()`
(windows.py line 103): one or two digits for the hour (0–23), a colon, one
or two digits for the minute (0–59), nothing else.  `none` models the
`ValueError` branch. -/
def parseHM (s : String) : Option (Nat × Nat) :=
  match chSplit ':' s.data with
  | [hs, ms] =>
    if 1 ≤ hs.length ∧ hs.length ≤ 2 ∧ hs.all Char.isDigit
        ∧ 1 ≤ ms.length ∧ ms.length ≤ 2 ∧ ms.all Char.isDigit then
      let hv := digitsToNat hs
      let mv := digitsToNat ms
      if hv ≤ 23 ∧ mv ≤ 59 then some (hv, mv) else none
    else none
  | _ => none

/-- Does the optional `start_time` argument parse (or is it absent)?  Used
only to state hypotheses about inputs on which `create_task` does not take
its invalid-time early return. -/
def timeOk : Option String → Bool
  | none => true
  | some s => (parseHM s).isSome

/-- Embedding of windows.py lines 108–111: combine today's date with the
parsed time; if that instant is strictly before `now` and the raw schedule
string is not exactly `"ONCE"`, roll forward one day. -/
def resolveBoundary (now : DateTime) (schedule : String) (hm : Nat × Nat) : DateTime :=
  let start : DateTime := ⟨now.day, (hm.1 * 60 + hm.2) * 60⟩
  if dtLtb start now && !(schedule == "ONCE") then ⟨start.day + 1, start.sec⟩ else start

/-- Embedding of `WindowsTaskScheduler._ensure_task_path` (windows.py lines
44–54): names not starting with a backslash are put under the fixed
`\datalys2\` folder; rooted names pass through unchanged. -/
def ensure_task_path (task_name : String) : String :=
  if listStartsWith ['\\'] task_name.data then task_name
  else "\\datalys2\\" ++ task_name

/-- Embedding of the per-argument quoting in windows.py line 95:
`f'"{a}"' if " " in a else a` — quoted exactly when the argument contains a
space character. -/
def quoteIfSpace (a : String) : String :=
  if a.data.contains ' ' then "\"" ++ a ++ "\"" else a

/-- Python `" ".join(items)`. -/
def joinSpace : List String → String
  | [] => ""
  | [a] => a
  | a :: b :: rest => a ++ " " ++ joinSpace (b :: rest)

/-- Embedding of windows.py lines 93–96: the `<Arguments>` string is the
script path in double quotes, followed (when the argument list is
non-empty) by the space-joined arguments, each quoted iff it contains a
space. -/
def buildArgsStr (script : String) (args : List String) : String :=
  let base := "\"" ++ script ++ "\""
  match args with
  | [] => base
  | _ :: _ => base ++ " " ++ joinSpace (args.map quoteIfSpace)

/-- Refinement comparison point, following the spec's words rather than the
source: "each argument individually quoted exactly when it contains
whitespace".  Compared against `buildArgsStr`, which quotes only on a
space character. -/
def buildArgsStrWhitespaceSpec (script : String) (args : List String) : String :=
  let base := "\"" ++ script ++ "\""
  match args with
  | [] => base
  | _ :: _ =>
    base ++ " " ++ joinSpace (args.map fun a =>
      if a.data.any Char.isWhitespace then "\"" ++ a ++ "\"" else a)

/-- Path separator test used to embed `pathlib.Path(...).parent`. -/
def isSep (c : Char) : Bool := c == '\\' || c == '/'

/-- Embedding of `Path(script).parent` (windows.py line 89) for absolute
paths with a separator: everything before the final path separator.  A
separator-free string maps to `"."` as `pathlib` does for bare names. -/
def pathParent (p : String) : String :=
  match (p.data.reverse.dropWhile fun c => !(isSep c)) with
  | [] => "."
  | _ :: rest => String.mk rest.reverse

/-- One generated trigger, one constructor per XML template in windows.py
lines 130–158: `TimeTrigger` for ONCE, `CalendarTrigger` with a one-day
interval for DAILY, `LogonTrigger` for ONLOGON, and the `TimeTrigger`
fallback for everything else. -/
inductive Trigger where
  | timeTrig (startBoundary : DateTime)
  | calendarDaily (startBoundary : DateTime)
  | logon
deriving DecidableEq, Repr

/-- Trigger-template selection (windows.py lines 130–158): the comparisons
are on `schedule.upper()`. -/
def trigOf (schedule : String) (b : DateTime) : Trigger :=
  if strToUpper schedule == "ONCE" then Trigger.timeTrig b
  else if strToUpper schedule == "DAILY" then Trigger.calendarDaily b
  else if strToUpper schedule == "ONLOGON" then Trigger.logon
  else Trigger.timeTrig b

/-- The `<Settings>` block of the generated document (windows.py lines
178–196), field for field. -/
structure SettingsBlock where
  multipleInstancesPolicy : String
  disallowStartIfOnBatteries : Bool
  stopIfGoingOnBatteries : Bool
  allowHardTerminate : Bool
  startWhenAvailable : Bool
  runOnlyIfNetworkAvailable : Bool
  allowStartOnDemand : Bool
  enabled : Bool
  hidden : Bool
  runOnlyIfIdle : Bool
  wakeToRun : Bool
  executionTimeLimit : String
  priority : Nat
deriving DecidableEq, Repr

/-- The literal settings the generator always emits (windows.py lines
178–196). -/
def fixedSettings : SettingsBlock :=
  { multipleInstancesPolicy := "IgnoreNew"
  , disallowStartIfOnBatteries := false
  , stopIfGoingOnBatteries := false
  , allowHardTerminate := true
  , startWhenAvailable := true
  , runOnlyIfNetworkAvailable := false
  , allowStartOnDemand := true
  , enabled := true
  , hidden := false
  , runOnlyIfIdle := false
  , wakeToRun := false
  , executionTimeLimit := "PT72H"
  , priority := 7 }

/-- The structured content of the generated task-definition document
(windows.py lines 162–205): trigger, principal, settings and action.  The
`RegistrationInfo` metadata (creation date, user name, description) is
environment text not examined by any claim and is omitted. -/
structure TaskDoc where
  trigger : Trigger
  startBoundary : DateTime
  logonType : String
  runLevel : String
  settings : SettingsBlock
  command : String
  arguments : String
  workingDirectory : String
deriving DecidableEq, Repr

/-- Document assembly for a resolved boundary: the trigger template for the
schedule string, the fixed principal and settings, and the `<Exec>` action
(windows.py lines 162–205). -/
def buildDoc (python_exe script schedule : String) (args : List String)
    (b : DateTime) : TaskDoc :=
  { trigger := trigOf schedule b
  , startBoundary := b
  , logonType := "InteractiveToken"
  , runLevel := "LeastPrivilege"
  , settings := fixedSettings
  , command := python_exe
  , arguments := buildArgsStr script args
  , workingDirectory := pathParent script }

/-- Observable effects of one adapter call, in order of occurrence. -/
inductive Ev where
  | docBuilt
  | tmpCreated
  | createCall
  | tmpRemoved
  | queryCall
deriving DecidableEq, BEq, Repr

/-- Final liveness of the temporary file after an event trace. -/
def tmpLive (evs : List Ev) : Bool :=
  evs.foldl (fun b e =>
    match e with
    | Ev.tmpCreated => true
    | Ev.tmpRemoved => false
    | _ => b) false

/-- Exceptions the adapter can raise: `FileNotFoundError` for a missing
script (windows.py line 87) and the `RuntimeError` wrapping a missing
`schtasks` binary (windows.py line 42). -/
inductive PyErr where
  | fileNotFound
  | toolMissing
deriving DecidableEq, Repr

/-- Result of one `create_task` call: `Except.error` models a raised
exception, `Except.ok b` the boolean return value; `doc` is the generated
document when generation was reached; `events` the effect trace. -/
structure CreateRes where
  result : Except PyErr Bool
  doc : Option TaskDoc
  events : List Ev
deriving Repr

/-- The ambient operating-system state a call runs against: the current
instant, the set of existing script files, availability of the `schtasks`
binary, the set of task names registered with the OS scheduler, and the
ambient interpreter / invoking-script paths `sys.executable` and
`os.path.abspath(sys.argv[0])` that `autorun.schedule_me` discovers. -/
structure World where
  now : DateTime
  scripts : List String
  schtasksOk : Bool
  registered : List String
  pythonExe : String
  argv0 : String
deriving DecidableEq, Repr

/-- Embedding of `WindowsTaskScheduler.create_task` (windows.py lines
56–232), with the `schtasks /Create` call modelled on `World`: when the
binary is available the subprocess exits 0 iff `/F` was passed or the
qualified name is unregistered, and on exit 0 the name becomes registered.
Control flow follows the source: qualify name; raise on missing script;
build working dir and argument string; parse the time (printing and
returning `False` on a `ValueError`); resolve the boundary; build the
document; write the temporary file; invoke create; remove the temporary
file on every exit path of the `try`/`finally`.  `interval_minutes` is
accepted and ignored exactly as in the source. -/
def create_task (python_exe task_name script schedule : String)
    (start_time : Option String) (interval_minutes : Option Nat)
    (args : List String) (force : Bool) (w : World) : CreateRes × World :=
  let full := ensure_task_path task_name
  let _ := interval_minutes
  if script ∈ w.scripts then
    let boundaryOpt : Option DateTime :=
      match start_time with
      | some st =>
        match parseHM st with
        | none => none
        | some hm => some (resolveBoundary w.now schedule hm)
      | none => some w.now
    match boundaryOpt with
    | none =>
      ({ result := Except.ok false, doc := none, events := [] }, w)
    | some b =>
      let d := buildDoc python_exe script schedule args b
      if w.schtasksOk then
        if force ∨ full ∉ w.registered then
          ({ result := Except.ok true, doc := some d
           , events := [Ev.docBuilt, Ev.tmpCreated, Ev.createCall, Ev.tmpRemoved] },
           { w with registered := full :: w.registered })
        else
          ({ result := Except.ok false, doc := some d
           , events := [Ev.docBuilt, Ev.tmpCreated, Ev.createCall, Ev.tmpRemoved] }, w)
      else
        ({ result := Except.error PyErr.toolMissing, doc := some d
         , events := [Ev.docBuilt, Ev.tmpCreated, Ev.tmpRemoved] }, w)
  else
    ({ result := Except.error PyErr.fileNotFound, doc := none, events := [] }, w)

/-- One CSV line split into fields: comma-separated, a double quote opens a
quoted field in which a doubled quote denotes a literal quote.  Mirrors
`csv.reader` field splitting for the well-formed lines the utility
emits. -/
def fieldsOf : List Char → Bool → List Char → List String
  | [], _, cur => [String.mk cur.reverse]
  | '"' :: '"' :: rest, true, cur => fieldsOf rest true ('"' :: cur)
  | '"' :: rest, true, cur => fieldsOf rest false cur
  | c :: rest, true, cur => fieldsOf rest true (c :: cur)
  | ',' :: rest, false, cur => String.mk cur.reverse :: fieldsOf rest false []
  | '"' :: rest, false, cur => fieldsOf rest true cur
  | c :: rest, false, cur => fieldsOf rest false (c :: cur)

/-- Strip a trailing carriage return, as the `csv` module does for CRLF
input. -/
def stripCR (l : List Char) : List Char :=
  match l.getLast? with
  | some '\r' => l.dropLast
  | _ => l

/-- The raw text split into CSV rows of fields; blank lines are skipped as
`csv.DictReader` skips empty rows. -/
def csvRows (s : String) : List (List String) :=
  (((chSplit '\n' s.data).map stripCR).filter fun l => !l.isEmpty).map
    fun l => fieldsOf l false []

/-- A parsed record: header field paired with cell value. -/
abbrev Row := List (String × String)

/-- Embedding of `csv.DictReader` as used in windows.py lines 294–297 and
324–330: the first row is the header, each later row is zipped against it
positionally. -/
def dictRows (s : String) : List Row :=
  match csvRows s with
  | [] => []
  | header :: rows => rows.map fun r => header.zip r

/-- Python `row.get(key, dflt)` on a parsed record. -/
def rowGet (row : Row) (key dflt : String) : String :=
  match row.find? (fun p => p.1 == key) with
  | some p => p.2
  | none => dflt

/-- The parsing half of `WindowsTaskScheduler.query_task` (windows.py lines
285–301), as a function of the subprocess exit code and captured stdout:
non-zero exit yields `none`; otherwise the first parsed record, if any.
The parser is a total function, so the `except` guard of the source has
nothing to catch here: no input makes parsing fail. -/
def query_task (task_name : String) (rc : Nat) (stdout : String) : Option Row :=
  let _ := ensure_task_path task_name
  if rc != 0 then none else (dictRows stdout).head?

/-- Embedding of `WindowsTaskScheduler.list_tasks` (windows.py lines
303–334) as a function of the subprocess exit code and captured stdout:
non-zero exit yields `[]`; otherwise every parsed record whose `TaskName`
passes the filter `pattern == "*" or pattern in task_name`. -/
def list_tasks (pattern : String) (rc : Nat) (stdout : String) : List Row :=
  if rc != 0 then []
  else (dictRows stdout).filter fun row =>
    pattern == "*" || strContains (rowGet row "TaskName" "") pattern

/-- One record of the JSON the HTTP router returns (scheduler_router.py
lines 24–33). -/
structure WebTask where
  name : String
  short_name : String
  status : String
  next_run_time : String
  last_run_time : String
  last_result : String
  author : String
  schedule : String
deriving DecidableEq, Repr

/-- Record post-processing in `list_scheduled_tasks` (scheduler_router.py
lines 18–33). -/
def toWebTask (row : Row) : WebTask :=
  let full := rowGet row "TaskName" ""
  { name := full
  , short_name := String.mk ((chSplit '\\' full.data).getLastD full.data)
  , status := rowGet row "Status" "Unknown"
  , next_run_time := rowGet row "Next Run Time" "N/A"
  , last_run_time := rowGet row "Last Run Time" "N/A"
  , last_result := rowGet row "Last Result" "N/A"
  , author := rowGet row "Author" "N/A"
  , schedule := rowGet row "Schedule Type" "Unknown" }

/-- Embedding of the HTTP route `list_scheduled_tasks` (scheduler_router.py
lines 10–34): `list_tasks` invoked with the fixed folder pattern
`"\datalys2\"`, records post-processed into `WebTask`s. -/
def list_scheduled_tasks (rc : Nat) (stdout : String) : List WebTask :=
  (list_tasks "\\datalys2\\" rc stdout).map toWebTask

/-- The query half of the self-scheduling protocol, with the
`schtasks /Query /TN <name>` subprocess modelled on `World`: a missing
binary raises; otherwise the query exits 0 and yields one record exactly
when the qualified name is registered (the record carries at least its
`TaskName`, so it is non-empty and truthy in the Python sense). -/
def query_task_env (w : World) (task_name : String) : Except PyErr (Option Row) :=
  let full := ensure_task_path task_name
  if w.schtasksOk then
    if full ∈ w.registered then Except.ok (some [("TaskName", full)])
    else Except.ok none
  else Except.error PyErr.toolMissing

/-- Embedding of `autorun.schedule_me` (autorun.py lines 10–117): uppercase
the frequency, query for the task by name; if a record is found and
`overwrite` is false, return `True` without further action; otherwise call
`create_task` on the ambient script `argv0` with `force=True`.  Returns the
result together with the updated world and the effect trace. -/
def schedule_me (name frequency : String) (at_ : Option String)
    (interval : Option Nat) (args : List String) (overwrite : Bool)
    (w : World) : Except PyErr Bool × World × List Ev :=
  let freq := strToUpper frequency
  match query_task_env w name with
  | Except.error e => (Except.error e, w, [Ev.queryCall])
  | Except.ok (some _row) =>
    if !overwrite then (Except.ok true, w, [Ev.queryCall])
    else
      let (r, w2) := create_task w.pythonExe name w.argv0 freq at_ interval args true w
      (r.result, w2, Ev.queryCall :: r.events)
  | Except.ok none =>
    let (r, w2) := create_task w.pythonExe name w.argv0 freq at_ interval args true w
    (r.result, w2, Ev.queryCall :: r.events)

/-- A world with one existing script, the tool available, and nothing yet
registered: the concrete environment for witnesses. -/
def wBase : World :=
  { now := ⟨0, 9 * 3600 + 5 * 60⟩
  , scripts := ["C:\\jobs\\report.py"]
  , schtasksOk := true
  , registered := []
  , pythonExe := "C:\\py\\python.exe"
  , argv0 := "C:\\jobs\\report.py" }

/-- A world whose filesystem contains no scripts at all. -/
def wNoScript : World :=
  { now := ⟨0, 0⟩
  , scripts := []
  , schtasksOk := true
  , registered := []
  , pythonExe := "C:\\py\\python.exe"
  , argv0 := "C:\\jobs\\report.py" }

/-- Sample `schtasks /Query /FO CSV` output with one record outside the
`\datalys2\` folder and one inside it. -/
def sMixed : String :=
  "TaskName,Status\n\\Other\\evil,Ready\n\\datalys2\\nightly,Ready"

/-- The boundary a successful create resolves for a valid (or absent)
start time: the current instant when absent, `resolveBoundary` of the
parsed time otherwise. -/
def boundaryOf (w : World) (sched : String) : Option String → DateTime
  | none => w.now
  | some s => resolveBoundary w.now sched ((parseHM s).getD (0, 0))

/-- Every generated document is built by `buildDoc` from some resolved
boundary; otherwise no document is generated at all. -/
theorem create_task_doc_shape (pexe tn script sched : String) (st : Option String)
    (iv : Option Nat) (args : List String) (force : Bool) (w : World) :
    (create_task pexe tn script sched st iv args force w).1.doc = none ∨
    ∃ b : DateTime,
      (create_task pexe tn script sched st iv args force w).1.doc
        = some (buildDoc pexe script sched args b) := by
  simp only [create_task]
  repeat' split
  all_goals first
  | exact Or.inl rfl
  | exact Or.inr ⟨_, rfl⟩

/-- The `<Arguments>` string is the space-join of the quoted script path
and the individually quoted arguments. -/
theorem buildArgsStr_eq_join (script : String) (args : List String) :
    buildArgsStr script args
      = joinSpace (("\"" ++ script ++ "\"") :: args.map quoteIfSpace) := by
  cases args <;> rfl

/-- C9: the tabular parsing used by query and list maps the two-row input
with header `TaskName,Status` and data row `X,Ready` to exactly one record,
maps header-only input to an empty result, and maps garbled input to an
empty result; the embedded parser is a total function, so no input makes it
raise, matching the `except` guards in the source that convert any parse
failure into `None` / `[]`. -/
theorem C9_tabular_parse :
    dictRows "TaskName,Status\nX,Ready" = [[("TaskName", "X"), ("Status", "Ready")]] ∧
    dictRows "TaskName,Status" = [] ∧
    dictRows "%%%garbled%%%" = [] ∧
    query_task "job" 0 "TaskName,Status\nX,Ready"
      = some [("TaskName", "X"), ("Status", "Ready")] ∧
    query_task "job" 0 "%%%garbled%%%" = none ∧
    list_tasks "*" 0 "%%%garbled%%%" = [] :=
  ⟨rfl, rfl, rfl, rfl, rfl, rfl⟩

/-- C5: when the script path does not resolve to an existing file, create
raises `FileNotFoundError` with no document built, no temporary file, no
subprocess invocation, and no change to the outside world. -/
theorem C5_script_missing (pexe tn script sched : String) (st : Option String)
    (iv : Option Nat) (args : List String) (force : Bool) (w : World)
    (h : script ∉ w.scripts) :
    (create_task pexe tn script sched st iv args force w).1.result
        = Except.error PyErr.fileNotFound ∧
    (create_task pexe tn script sched st iv args force w).1.doc = none ∧
    (create_task pexe tn script sched st iv args force w).1.events = [] ∧
    (create_task pexe tn script sched st iv args force w).2 = w := by
  simp [create_task, h]

/-- Witness for C5 at a concrete world whose filesystem has no scripts. -/
theorem C5_script_missing_witness :
    (create_task "C:\\py\\python.exe" "t" "C:\\jobs\\report.py" "DAILY" none none [] false
        wNoScript).1.result = Except.error PyErr.fileNotFound ∧
    (create_task "C:\\py\\python.exe" "t" "C:\\jobs\\report.py" "DAILY" none none [] false
        wNoScript).1.doc = none ∧
    (create_task "C:\\py\\python.exe" "t" "C:\\jobs\\report.py" "DAILY" none none [] false
        wNoScript).1.events = [] ∧
    (create_task "C:\\py\\python.exe" "t" "C:\\jobs\\report.py" "DAILY" none none [] false
        wNoScript).2 = wNoScript :=
  C5_script_missing "C:\\py\\python.exe" "t" "C:\\jobs\\report.py" "DAILY" none none [] false
    wNoScript (by decide)

/-- C3 counterexample: on the unparsable start time `"9am"` the create
operation does not raise — it returns the boolean `False` (the result is
`Except.ok false`, not an `Except.error`), after printing a diagnostic,
with no document generated and no subprocess invoked. -/
theorem C3_invalid_time_cex :
    (create_task "C:\\py\\python.exe" "t" "C:\\jobs\\report.py" "DAILY" (some "9am")
        none [] false wBase).1.result = Except.ok false ∧
    (create_task "C:\\py\\python.exe" "t" "C:\\jobs\\report.py" "DAILY" (some "9am")
        none [] false wBase).1.doc = none ∧
    (create_task "C:\\py\\python.exe" "t" "C:\\jobs\\report.py" "DAILY" (some "9am")
        none [] false wBase).1.events = [] :=
  ⟨rfl, rfl, rfl⟩

/-- C3 amended: a start time string that does not parse as 24-hour "HH:MM"
makes create return the boolean `False` (no exception), and this validation
happens before any document is generated, any temporary file is written, or
any subprocess is invoked; the outside world is untouched. -/
theorem C3_invalid_time_returns_false (pexe tn script sched : String) (st : String)
    (iv : Option Nat) (args : List String) (force : Bool) (w : World)
    (hs : script ∈ w.scripts)
    (hp : parseHM st = none) :
    (create_task pexe tn script sched (some st) iv args force w).1.result
        = Except.ok false ∧
    (create_task pexe tn script sched (some st) iv args force w).1.doc = none ∧
    (create_task pexe tn script sched (some st) iv args force w).1.events = [] ∧
    (create_task pexe tn script sched (some st) iv args force w).2 = w := by
  simp [create_task, hs, hp]

/-- Witness for the amended C3 at the concrete input `"9am"`. -/
theorem C3_invalid_time_returns_false_witness :
    (create_task "C:\\py\\python.exe" "t" "C:\\jobs\\report.py" "DAILY" (some "9am")
        none [] false wBase).1.result = Except.ok false ∧
    (create_task "C:\\py\\python.exe" "t" "C:\\jobs\\report.py" "DAILY" (some "9am")
        none [] false wBase).1.doc = none ∧
    (create_task "C:\\py\\python.exe" "t" "C:\\jobs\\report.py" "DAILY" (some "9am")
        none [] false wBase).1.events = [] ∧
    (create_task "C:\\py\\python.exe" "t" "C:\\jobs\\report.py" "DAILY" (some "9am")
        none [] false wBase).2 = wBase :=
  C3_invalid_time_returns_false "C:\\py\\python.exe" "t" "C:\\jobs\\report.py" "DAILY" "9am"
    none [] false wBase (by decide) (by decide)

/-- C4 counterexample: with the wildcard pattern the list operation returns
a record whose `TaskName` is `\Other\evil`, which does not contain the
owned folder `\datalys2\` — so listing with `"*"` is not restricted to
tasks owned by this system. -/
theorem C4_wildcard_unowned_cex :
    list_tasks "*" 0 sMixed =
      [[("TaskName", "\\Other\\evil"), ("Status", "Ready")],
       [("TaskName", "\\datalys2\\nightly"), ("Status", "Ready")]] ∧
    strContains "\\Other\\evil" "\\datalys2\\" = false :=
  ⟨rfl, rfl⟩

/-- C4 amended: the list operation filters only by substring — a
non-wildcard pattern returns exactly the parsed records whose `TaskName`
contains the pattern, while `"*"` returns every record, owned or not; the
restriction to owned tasks happens in the HTTP layer, which calls list with
the fixed folder `\datalys2\` as the pattern, so every record it returns
has a `TaskName` containing that folder. -/
theorem C4_substring_filter_and_router :
    (∀ pattern stdout : String, pattern ≠ "*" →
      list_tasks pattern 0 stdout =
        (dictRows stdout).filter fun row =>
          strContains (rowGet row "TaskName" "") pattern) ∧
    (∀ (stdout : String) (t : WebTask), t ∈ list_scheduled_tasks 0 stdout →
      strContains t.name "\\datalys2\\" = true) := by
  constructor
  · intro pattern stdout hpat
    have hb : (pattern == "*") = false := by
      cases h : pattern == "*" with
      | false => rfl
      | true => exact absurd (by simpa using h) hpat
    simp [list_tasks, hb]
  · intro stdout t ht
    simp only [list_scheduled_tasks, List.mem_map] at ht
    obtain ⟨row, hrow, hEq⟩ := ht
    have hrow2 : row ∈ (dictRows stdout).filter (fun row =>
        (("\\datalys2\\" : String) == "*")
          || strContains (rowGet row "TaskName" "") "\\datalys2\\") := hrow
    rw [List.mem_filter] at hrow2
    obtain ⟨-, hcond⟩ := hrow2
    have hw : (("\\datalys2\\" : String) == "*") = false := by decide
    rw [hw, Bool.false_or] at hcond
    subst hEq
    simpa [toWebTask] using hcond

/-- Witness for the amended C4: the substring filter at pattern
`"nightly"` on the mixed sample, and an owned record returned by the HTTP
route. -/
theorem C4_substring_filter_and_router_witness :
    list_tasks "nightly" 0 sMixed =
      (dictRows sMixed).filter (fun row =>
        strContains (rowGet row "TaskName" "") "nightly") ∧
    strContains (toWebTask [("TaskName", "\\datalys2\\nightly"), ("Status", "Ready")]).name
      "\\datalys2\\" = true :=
  ⟨C4_substring_filter_and_router.1 "nightly" sMixed (by decide),
   C4_substring_filter_and_router.2 sMixed
     (toWebTask [("TaskName", "\\datalys2\\nightly"), ("Status", "Ready")]) (by decide)⟩

/-- C8: every generated document carries the fixed settings block —
single-concurrent-instance policy, hard-terminate allowed, run-on-demand
allowed, a 72-hour execution ceiling, not hidden — and the least-privilege
run level, independent of every caller-supplied parameter. -/
theorem C8_settings_invariant (pexe tn script sched : String) (st : Option String)
    (iv : Option Nat) (args : List String) (force : Bool) (w : World) (d : TaskDoc)
    (hd : (create_task pexe tn script sched st iv args force w).1.doc = some d) :
    d.settings = fixedSettings ∧
    d.settings.multipleInstancesPolicy = "IgnoreNew" ∧
    d.settings.allowHardTerminate = true ∧
    d.settings.allowStartOnDemand = true ∧
    d.settings.executionTimeLimit = "PT72H" ∧
    d.settings.hidden = false ∧
    d.runLevel = "LeastPrivilege" := by
  rcases create_task_doc_shape pexe tn script sched st iv args force w with h | ⟨b, h⟩
  · rw [h] at hd; exact absurd hd (by simp)
  · rw [h] at hd
    have hdb : d = buildDoc pexe script sched args b := (Option.some.inj hd).symm
    subst hdb
    exact ⟨rfl, rfl, rfl, rfl, rfl, rfl, rfl⟩

/-- Witness for C8 at a concrete create call. -/
theorem C8_settings_invariant_witness :
    (buildDoc "C:\\py\\python.exe" "C:\\jobs\\report.py" "DAILY" []
        (DateTime.mk 1 32400)).settings = fixedSettings ∧
    (buildDoc "C:\\py\\python.exe" "C:\\jobs\\report.py" "DAILY" []
        (DateTime.mk 1 32400)).settings.multipleInstancesPolicy = "IgnoreNew" ∧
    (buildDoc "C:\\py\\python.exe" "C:\\jobs\\report.py" "DAILY" []
        (DateTime.mk 1 32400)).settings.allowHardTerminate = true ∧
    (buildDoc "C:\\py\\python.exe" "C:\\jobs\\report.py" "DAILY" []
        (DateTime.mk 1 32400)).settings.allowStartOnDemand = true ∧
    (buildDoc "C:\\py\\python.exe" "C:\\jobs\\report.py" "DAILY" []
        (DateTime.mk 1 32400)).settings.executionTimeLimit = "PT72H" ∧
    (buildDoc "C:\\py\\python.exe" "C:\\jobs\\report.py" "DAILY" []
        (DateTime.mk 1 32400)).settings.hidden = false ∧
    (buildDoc "C:\\py\\python.exe" "C:\\jobs\\report.py" "DAILY" []
        (DateTime.mk 1 32400)).runLevel = "LeastPrivilege" :=
  C8_settings_invariant "C:\\py\\python.exe" "t" "C:\\jobs\\report.py" "DAILY" (some "09:00")
    none [] false wBase (buildDoc "C:\\py\\python.exe" "C:\\jobs\\report.py" "DAILY" []
      (DateTime.mk 1 32400)) rfl

/-- C6: once document generation is reached, the temporary file is created
exactly once for the call and is no longer present after the call on every
exit path — subprocess success, non-zero exit, and the raised-exception
path alike; and on no path at all does a call leave a temporary file
live. -/
theorem C6_tmpfile_cleanup (pexe tn script sched : String) (st : Option String)
    (iv : Option Nat) (args : List String) (force : Bool) (w : World) :
    tmpLive ((create_task pexe tn script sched st iv args force w).1.events) = false ∧
    ((create_task pexe tn script sched st iv args force w).1.doc.isSome = true →
      ((create_task pexe tn script sched st iv args force w).1.events).count Ev.tmpCreated = 1 ∧
      ((create_task pexe tn script sched st iv args force w).1.events).count Ev.tmpRemoved = 1) := by
  simp only [create_task]
  repeat' split
  all_goals constructor
  all_goals first
  | rfl
  | (intro hds; exact ⟨rfl, rfl⟩)
  | (intro hds; simp at hds)

/-- Witness for C6 at a concrete create call that reaches document
generation. -/
theorem C6_tmpfile_cleanup_witness :
    tmpLive ((create_task "C:\\py\\python.exe" "t" "C:\\jobs\\report.py" "DAILY"
        (some "09:00") none [] false wBase).1.events) = false ∧
    ((create_task "C:\\py\\python.exe" "t" "C:\\jobs\\report.py" "DAILY"
        (some "09:00") none [] false wBase).1.events).count Ev.tmpCreated = 1 ∧
    ((create_task "C:\\py\\python.exe" "t" "C:\\jobs\\report.py" "DAILY"
        (some "09:00") none [] false wBase).1.events).count Ev.tmpRemoved = 1 :=
  ⟨(C6_tmpfile_cleanup "C:\\py\\python.exe" "t" "C:\\jobs\\report.py" "DAILY" (some "09:00")
      none [] false wBase).1,
   (C6_tmpfile_cleanup "C:\\py\\python.exe" "t" "C:\\jobs\\report.py" "DAILY" (some "09:00")
      none [] false wBase).2 rfl⟩

/-- C7 counterexample: the argument `"a\tb"` contains whitespace (a tab)
but the generated argument string leaves it unquoted — the code quotes only
on a space character, so the claim's "quoted exactly when it contains
whitespace" fails at this input. -/
theorem C7_tab_arg_unquoted_cex :
    ((create_task "C:\\py\\python.exe" "t" "C:\\jobs\\report.py" "DAILY" none none
        ["a\tb"] false wBase).1.doc).map TaskDoc.arguments
      = some "\"C:\\jobs\\report.py\" a\tb" ∧
    ("a\tb" : String).data.any Char.isWhitespace = true ∧
    buildArgsStrWhitespaceSpec "C:\\jobs\\report.py" ["a\tb"]
      = "\"C:\\jobs\\report.py\" \"a\tb\"" ∧
    ("\"C:\\jobs\\report.py\" a\tb" : String) ≠ "\"C:\\jobs\\report.py\" \"a\tb\"" :=
  ⟨rfl, rfl, rfl, by decide⟩

/-- C7 amended: every generated document's action has the executor path as
the command, the script's parent directory as the working directory, and an
argument string that is the space-join of the quoted script path and the
caller's arguments in order, each individually quoted exactly when it
contains a space character (U+0020). -/
theorem C7_action_payload (pexe tn script sched : String) (st : Option String)
    (iv : Option Nat) (args : List String) (force : Bool) (w : World) (d : TaskDoc)
    (hd : (create_task pexe tn script sched st iv args force w).1.doc = some d) :
    d.command = pexe ∧
    d.workingDirectory = pathParent script ∧
    d.arguments = joinSpace (("\"" ++ script ++ "\"") :: args.map quoteIfSpace) := by
  rcases create_task_doc_shape pexe tn script sched st iv args force w with hsh | ⟨b, hsh⟩
  · rw [hsh] at hd; exact absurd hd (by simp)
  · rw [hsh] at hd
    have hdb : d = buildDoc pexe script sched args b := (Option.some.inj hd).symm
    subst hdb
    exact ⟨rfl, rfl, buildArgsStr_eq_join script args⟩

/-- Witness for the amended C7 at a concrete create call with one
space-containing and one plain argument. -/
theorem C7_action_payload_witness :
    (buildDoc "C:\\py\\python.exe" "C:\\jobs\\report.py" "DAILY" ["x y", "z"]
        (DateTime.mk 1 32400)).command = "C:\\py\\python.exe" ∧
    (buildDoc "C:\\py\\python.exe" "C:\\jobs\\report.py" "DAILY" ["x y", "z"]
        (DateTime.mk 1 32400)).workingDirectory = pathParent "C:\\jobs\\report.py" ∧
    (buildDoc "C:\\py\\python.exe" "C:\\jobs\\report.py" "DAILY" ["x y", "z"]
        (DateTime.mk 1 32400)).arguments
      = joinSpace (("\"" ++ "C:\\jobs\\report.py" ++ "\"")
          :: (["x y", "z"] : List String).map quoteIfSpace) :=
  C7_action_payload "C:\\py\\python.exe" "t" "C:\\jobs\\report.py" "DAILY" (some "09:00")
    none ["x y", "z"] false wBase
    (buildDoc "C:\\py\\python.exe" "C:\\jobs\\report.py" "DAILY" ["x y", "z"]
      (DateTime.mk 1 32400)) rfl

/-- With the script present and the time parsing, the boundary stored in
the generated document is `resolveBoundary` of the parsed time, regardless
of subprocess outcome. -/
theorem create_task_boundary (pexe tn script sched : String) (st : String)
    (hm : Nat × Nat) (iv : Option Nat) (args : List String) (force : Bool) (w : World)
    (hs : script ∈ w.scripts)
    (hp : parseHM st = some hm) :
    ((create_task pexe tn script sched (some st) iv args force w).1.doc).map
        TaskDoc.startBoundary = some (resolveBoundary w.now sched hm) := by
  simp only [create_task]
  rw [if_pos hs]
  simp only [hp]
  repeat' split
  all_goals simp [buildDoc]

/-- C2: for a start time that combines to an instant strictly before now,
the resolved start boundary of the generated document is that time on the
next day whenever the schedule kind is not Once, and that (past) time on
the current day for the Once kind. -/
theorem C2_day_rollover (pexe tn script sched : String) (h m : Nat) (st : String)
    (iv : Option Nat) (args : List String) (force : Bool) (w : World)
    (hs : script ∈ w.scripts)
    (hp : parseHM st = some (h, m))
    (hpast : dtLtb ⟨w.now.day, (h * 60 + m) * 60⟩ w.now = true) :
    (sched ≠ "ONCE" →
      ((create_task pexe tn script sched (some st) iv args force w).1.doc).map
          TaskDoc.startBoundary = some ⟨w.now.day + 1, (h * 60 + m) * 60⟩) ∧
    ((create_task pexe tn script "ONCE" (some st) iv args force w).1.doc).map
        TaskDoc.startBoundary = some ⟨w.now.day, (h * 60 + m) * 60⟩ := by
  constructor
  · intro hsched
    have hb : (sched == "ONCE") = false := by
      cases hq : sched == "ONCE" with
      | false => rfl
      | true => exact absurd (by simpa using hq) hsched
    rw [create_task_boundary pexe tn script sched st (h, m) iv args force w hs hp]
    simp [resolveBoundary, hpast, hb]
  · rw [create_task_boundary pexe tn script "ONCE" st (h, m) iv args force w hs hp]
    simp [resolveBoundary, hpast]

/-- Witness for C2: "09:00" when now is 09:05 on day 0 — Daily resolves to
09:00 on day 1, Once stays at 09:00 on day 0. -/
theorem C2_day_rollover_witness :
    ((create_task "C:\\py\\python.exe" "t" "C:\\jobs\\report.py" "DAILY" (some "09:00")
        none [] false wBase).1.doc).map TaskDoc.startBoundary
      = some (DateTime.mk 1 32400) ∧
    ((create_task "C:\\py\\python.exe" "t" "C:\\jobs\\report.py" "ONCE" (some "09:00")
        none [] false wBase).1.doc).map TaskDoc.startBoundary
      = some (DateTime.mk 0 32400) :=
  ⟨(C2_day_rollover "C:\\py\\python.exe" "t" "C:\\jobs\\report.py" "DAILY" 9 0 "09:00"
      none [] false wBase (by decide) (by decide) (by decide)).1 (by decide),
   (C2_day_rollover "C:\\py\\python.exe" "t" "C:\\jobs\\report.py" "DAILY" 9 0 "09:00"
      none [] false wBase (by decide) (by decide) (by decide)).2⟩

/-- C10: with the lowercase schedule string "once" and a start time already
past, the boundary is rolled forward to the next day (the rollover guard
compares the raw string against "ONCE" case-sensitively) even though the
trigger selected is still the one-shot TimeTrigger (template selection
uppercases the string). -/
theorem C10_lowercase_once_rollover (pexe tn script : String) (h m : Nat) (st : String)
    (iv : Option Nat) (args : List String) (force : Bool) (w : World)
    (hs : script ∈ w.scripts)
    (hp : parseHM st = some (h, m))
    (hpast : dtLtb ⟨w.now.day, (h * 60 + m) * 60⟩ w.now = true) :
    ∃ d : TaskDoc,
      (create_task pexe tn script "once" (some st) iv args force w).1.doc = some d ∧
      d.trigger = Trigger.timeTrig ⟨w.now.day + 1, (h * 60 + m) * 60⟩ ∧
      d.startBoundary = ⟨w.now.day + 1, (h * 60 + m) * 60⟩ := by
  have hres : resolveBoundary w.now "once" (h, m)
      = ⟨w.now.day + 1, (h * 60 + m) * 60⟩ := by
    have hb : (("once" : String) == "ONCE") = false := by decide
    simp [resolveBoundary, hpast, hb]
  have htr : trigOf "once" (⟨w.now.day + 1, (h * 60 + m) * 60⟩ : DateTime)
      = Trigger.timeTrig ⟨w.now.day + 1, (h * 60 + m) * 60⟩ := by
    have hu : strToUpper "once" = "ONCE" := by decide
    simp [trigOf, hu]
  simp only [create_task]
  rw [if_pos hs]
  simp only [hp, hres]
  repeat' split
  all_goals exact ⟨_, rfl, by simp [buildDoc, htr], rfl⟩

/-- Witness for C10: "once" with "09:00" when now is 09:05 on day 0 — a
one-shot trigger at 09:00 on day 1. -/
theorem C10_lowercase_once_rollover_witness :
    ∃ d : TaskDoc,
      (create_task "C:\\py\\python.exe" "t" "C:\\jobs\\report.py" "once" (some "09:00")
          none [] false wBase).1.doc = some d ∧
      d.trigger = Trigger.timeTrig (DateTime.mk 1 32400) ∧
      d.startBoundary = DateTime.mk 1 32400 :=
  C10_lowercase_once_rollover "C:\\py\\python.exe" "t" "C:\\jobs\\report.py" 9 0 "09:00"
    none [] false wBase (by decide) (by decide) (by decide)

/-- With the script present, the tool available and a valid (or absent)
start time, a forced create succeeds, registers the qualified name, and
performs exactly the generate–write–invoke–cleanup effect sequence. -/
theorem create_task_force_success (pexe tn script sched : String) (st : Option String)
    (iv : Option Nat) (args : List String) (w : World)
    (hs : script ∈ w.scripts)
    (htool : w.schtasksOk = true)
    (ht : timeOk st = true) :
    create_task pexe tn script sched st iv args true w =
      ({ result := Except.ok true
       , doc := some (buildDoc pexe script sched args (boundaryOf w sched st))
       , events := [Ev.docBuilt, Ev.tmpCreated, Ev.createCall, Ev.tmpRemoved] },
       { w with registered := ensure_task_path tn :: w.registered }) := by
  cases st with
  | none => simp [create_task, boundaryOf, hs, htool]
  | some s =>
    obtain ⟨hm, hpm⟩ := Option.isSome_iff_exists.mp ht
    simp [create_task, boundaryOf, hs, htool, hpm]

/-- C1: for a spec with force=false, calling ensure twice in succession
performs exactly one create invocation — the first call's query finds no
record and its trace contains one create subprocess invocation; the second
call's query finds the registered record, it returns success, its trace is
the query invocation alone, and it leaves the world unchanged. -/
theorem C1_ensure_once_then_noop (name freq : String) (at_ : Option String)
    (iv : Option Nat) (args : List String) (w : World)
    (hreg : ensure_task_path name ∉ w.registered)
    (hscript : w.argv0 ∈ w.scripts)
    (htool : w.schtasksOk = true)
    (htime : timeOk at_ = true) :
    query_task_env w name = Except.ok none ∧
    (schedule_me name freq at_ iv args false w).1 = Except.ok true ∧
    (schedule_me name freq at_ iv args false w).2.2
      = [Ev.queryCall, Ev.docBuilt, Ev.tmpCreated, Ev.createCall, Ev.tmpRemoved] ∧
    (∃ row : Row, query_task_env (schedule_me name freq at_ iv args false w).2.1 name
      = Except.ok (some row)) ∧
    (schedule_me name freq at_ iv args false
        ((schedule_me name freq at_ iv args false w).2.1)).1 = Except.ok true ∧
    (schedule_me name freq at_ iv args false
        ((schedule_me name freq at_ iv args false w).2.1)).2.2 = [Ev.queryCall] ∧
    (schedule_me name freq at_ iv args false
        ((schedule_me name freq at_ iv args false w).2.1)).2.1
      = (schedule_me name freq at_ iv args false w).2.1 := by
  have hq : query_task_env w name = Except.ok none := by
    simp [query_task_env, htool, hreg]
  have hc := create_task_force_success w.pythonExe name w.argv0 (strToUpper freq)
    at_ iv args w hscript htool htime
  have h1 : schedule_me name freq at_ iv args false w
      = (Except.ok true,
         { w with registered := ensure_task_path name :: w.registered },
         [Ev.queryCall, Ev.docBuilt, Ev.tmpCreated, Ev.createCall, Ev.tmpRemoved]) := by
    simp [schedule_me, hq, hc]
  have hq2 : query_task_env { w with registered := ensure_task_path name :: w.registered } name
      = Except.ok (some [("TaskName", ensure_task_path name)]) := by
    simp [query_task_env, htool]
  have h2 : schedule_me name freq at_ iv args false
      { w with registered := ensure_task_path name :: w.registered }
      = (Except.ok true, { w with registered := ensure_task_path name :: w.registered },
         [Ev.queryCall]) := by
    simp [schedule_me, hq2]
  refine ⟨hq, ?_, ?_, ?_, ?_, ?_, ?_⟩ <;> rw [h1] <;> simp [h2, hq2]

/-- Witness for C1: the "nightly" job at "09:00" against the base world —
first ensure creates, second ensure is a pure query. -/
theorem C1_ensure_once_then_noop_witness :
    query_task_env wBase "nightly" = Except.ok none ∧
    (schedule_me "nightly" "DAILY" (some "09:00") none [] false wBase).1 = Except.ok true ∧
    (schedule_me "nightly" "DAILY" (some "09:00") none [] false wBase).2.2
      = [Ev.queryCall, Ev.docBuilt, Ev.tmpCreated, Ev.createCall, Ev.tmpRemoved] ∧
    (∃ row : Row, query_task_env
        (schedule_me "nightly" "DAILY" (some "09:00") none [] false wBase).2.1 "nightly"
      = Except.ok (some row)) ∧
    (schedule_me "nightly" "DAILY" (some "09:00") none [] false
        ((schedule_me "nightly" "DAILY" (some "09:00") none [] false wBase).2.1)).1
      = Except.ok true ∧
    (schedule_me "nightly" "DAILY" (some "09:00") none [] false
        ((schedule_me "nightly" "DAILY" (some "09:00") none [] false wBase).2.1)).2.2
      = [Ev.queryCall] ∧
    (schedule_me "nightly" "DAILY" (some "09:00") none [] false
        ((schedule_me "nightly" "DAILY" (some "09:00") none [] false wBase).2.1)).2.1
      = (schedule_me "nightly" "DAILY" (some "09:00") none [] false wBase).2.1 :=
  C1_ensure_once_then_noop "nightly" "DAILY" (some "09:00") none [] wBase
    (by decide) (by decide) (by decide) (by decide)

end Datalys2
